import Mathlib

/-!
Shallow embedding of the ECS Spring Boot infrastructure repository
(CDK constructs in `lib/constructs/*.ts` plus the orchestrating stack).
Each construct's constructor is modelled as a pure `make` function from
its props record (optional fields model the `?:` TypeScript props, with
`Option.getD` playing the role of `??` defaulting) to a state record
holding the resource descriptions the construct emits to the cloud
provider.  Provider-resolved attributes (instance endpoints, ARNs, IDs)
are passed in as explicit parameters, since in the source they are
deploy-time tokens surfaced by the provider.
-/

namespace EcsInfra

/-- Removal policy of a provider-managed resource (cdk.RemovalPolicy). -/
inductive RemovalPolicy where
  | retain
  | destroy
deriving DecidableEq, Repr

/-- A network peer that can appear as the source of an ingress rule:
either any IPv4 address (ec2.Peer.anyIpv4()) or a security group,
identified here by the component that owns it. -/
inductive Component where
  | network
  | dns
  | database
  | jumphost
  | application
deriving DecidableEq, Repr

inductive Peer where
  | anyIpv4
  | securityGroupOf (owner : Component)
deriving DecidableEq, Repr

/-- One ingress rule of a security group (ec2.SecurityGroup.addIngressRule
with a tcp port). -/
structure IngressRule where
  peer : Peer
  port : Nat
  description : String
deriving DecidableEq, Repr

/-- An ec2.SecurityGroup: its description, the allowAllOutbound flag set at
creation, and the ordered list of ingress rules added to it. -/
structure SecurityGroup where
  description : String
  allowAllOutbound : Bool
  ingressRules : List IngressRule
deriving DecidableEq, Repr

/-- A call the construct issues to the cloud provider.  The constructs in
this repository only ever create resources; `update` and `delete` exist in
the action vocabulary so that their absence from every emitted trace is a
statement about the code, not about the model. -/
inductive ProviderAction where
  | create (resource : String)
  | update (resource : String)
  | delete (resource : String)
deriving DecidableEq, Repr

/-- True exactly on `delete` actions. -/
def ProviderAction.isDelete : ProviderAction → Bool
  | .delete _ => true
  | _ => false

/-! ## NetworkConstruct (`network-construct.ts`) -/

inductive SubnetType where
  | public
  | privateWithEgress
  | privateIsolated
deriving DecidableEq, Repr

structure SubnetConfigurationEntry where
  cidrMask : Nat
  name : String
  subnetType : SubnetType
deriving DecidableEq, Repr

structure NetworkConstructProps where
  maxAzs : Option Nat
  natGateways : Option Nat
deriving DecidableEq, Repr

/-- The VPC creation request the construct hands to the provider
(`new ec2.Vpc(...)`). -/
structure VpcSpec where
  maxAzs : Nat
  natGateways : Nat
  subnetConfiguration : List SubnetConfigurationEntry
  enableDnsHostnames : Bool
  enableDnsSupport : Bool
deriving DecidableEq, Repr

structure NetworkConstruct where
  vpc : VpcSpec
  actions : List ProviderAction
deriving DecidableEq, Repr

/-- `NetworkConstruct` constructor: applies the `?? 2` / `?? 1` defaults and
issues the VPC creation with the three-tier subnet configuration.  The
source performs no validation of either count. -/
def NetworkConstruct.make (props : NetworkConstructProps) : NetworkConstruct :=
  let maxAzs := props.maxAzs.getD 2
  let natGateways := props.natGateways.getD 1
  { vpc :=
      { maxAzs := maxAzs
        natGateways := natGateways
        subnetConfiguration :=
          [ { cidrMask := 24, name := "Public", subnetType := .public }
          , { cidrMask := 24, name := "Private", subnetType := .privateWithEgress }
          , { cidrMask := 24, name := "Database", subnetType := .privateIsolated } ]
        enableDnsHostnames := true
        enableDnsSupport := true }
    actions := [.create "Vpc"] }

/-! ## DnsConstruct (`dns-construct.ts`) -/

structure DnsConstructProps where
  domainName : String
  subdomainName : Option String
  subjectAlternativeNames : Option (List String)
deriving DecidableEq, Repr

/-- The certificate request (`new acm.Certificate(...)`): primary name plus
subject alternative names, DNS-validated against the looked-up zone. -/
structure CertificateSpec where
  domainName : String
  subjectAlternativeNames : List String
  validationZoneDomain : String
deriving DecidableEq, Repr

structure DnsConstruct where
  hostedZoneDomain : String
  certificate : CertificateSpec
  fullDomainName : String
  actions : List ProviderAction
deriving DecidableEq, Repr

/-- `DnsConstruct` constructor: defaults the subdomain to "spring", builds
`fullDomainName` as `subdomain.domain`, looks up the existing hosted zone
for the bare domain and requests a certificate for the full name with
subject alternative names defaulting to a wildcard on the domain. -/
def DnsConstruct.make (props : DnsConstructProps) : DnsConstruct :=
  let subdomainName := props.subdomainName.getD "spring"
  let fullDomainName := subdomainName ++ "." ++ props.domainName
  { hostedZoneDomain := props.domainName
    certificate :=
      { domainName := fullDomainName
        subjectAlternativeNames :=
          props.subjectAlternativeNames.getD ["*." ++ props.domainName]
        validationZoneDomain := props.domainName }
    fullDomainName := fullDomainName
    actions := [.create "Certificate"] }

/-! ## DatabaseConstruct (`database-construct.ts`) -/

/-- Instance type (ec2.InstanceType.of(class, size)). -/
structure InstanceTypeSpec where
  instanceClass : String
  instanceSize : String
deriving DecidableEq, Repr

structure DatabaseConstructProps where
  databaseName : Option String
  username : Option String
  instanceType : Option InstanceTypeSpec
  allocatedStorage : Option Nat
  maxAllocatedStorage : Option Nat
  deletionProtection : Option Bool
deriving DecidableEq, Repr

/-- The secret-generation request (`new secretsmanager.Secret(...)`). -/
structure SecretSpec where
  templateUsername : String
  generateStringKey : String
  excludeCharacters : String
  passwordLength : Nat
  description : String
deriving DecidableEq, Repr

/-- The RDS instance creation request (`new rds.DatabaseInstance(...)`). -/
structure DbInstanceSpec where
  engine : String
  engineVersion : String
  instanceType : InstanceTypeSpec
  subnetType : SubnetType
  databaseName : String
  allocatedStorage : Nat
  maxAllocatedStorage : Nat
  deleteAutomatedBackups : Bool
  backupRetentionDays : Nat
  deletionProtection : Bool
  removalPolicy : RemovalPolicy
deriving DecidableEq, Repr

structure DatabaseConstruct where
  databaseName : String
  username : String
  secret : SecretSpec
  secretArn : String
  securityGroup : SecurityGroup
  dbInstance : DbInstanceSpec
  endpoint : String
  port : Nat
  actions : List ProviderAction
deriving DecidableEq, Repr

/-- `DatabaseConstruct` constructor: applies the defaults, generates the
credential secret (fixed username in the template, random password of
length 16 excluding shell-unsafe characters), creates the default-deny
security group (`allowAllOutbound: false`, no ingress rules) and the RDS
instance in the isolated subnet group with
`removalPolicy = deletionProtection ? RETAIN : DESTROY`.  `endpointHost`,
`endpointPort` and `secretArnAttr` stand for the provider-resolved
attributes `instance.instanceEndpoint.hostname/.port` and
`secret.secretArn` (source field `instance` is spelled `dbInstance` here
because `instance` is a Lean keyword). -/
def DatabaseConstruct.make (props : DatabaseConstructProps)
    (secretArnAttr endpointHost : String) (endpointPort : Nat) :
    DatabaseConstruct :=
  let databaseName := props.databaseName.getD "springbootdb"
  let username := props.username.getD "springboot"
  let instanceType := props.instanceType.getD { instanceClass := "T3", instanceSize := "MICRO" }
  let allocatedStorage := props.allocatedStorage.getD 20
  let maxAllocatedStorage := props.maxAllocatedStorage.getD 100
  let deletionProtection := props.deletionProtection.getD false
  { databaseName := databaseName
    username := username
    secret :=
      { templateUsername := username
        generateStringKey := "password"
        excludeCharacters := "\"@/\\\x27"
        passwordLength := 16
        description := "Database credentials for Spring Boot application" }
    secretArn := secretArnAttr
    securityGroup :=
      { description := "Security group for RDS database"
        allowAllOutbound := false
        ingressRules := [] }
    dbInstance :=
      { engine := "postgres"
        engineVersion := "15.4"
        instanceType := instanceType
        subnetType := .privateIsolated
        databaseName := databaseName
        allocatedStorage := allocatedStorage
        maxAllocatedStorage := maxAllocatedStorage
        deleteAutomatedBackups := true
        backupRetentionDays := 7
        deletionProtection := deletionProtection
        removalPolicy := if deletionProtection then .retain else .destroy }
    endpoint := endpointHost
    port := endpointPort
    actions := [.create "Secret", .create "SecurityGroup", .create "Instance"] }

/-- `allowConnectionsFrom`: appends one ingress rule on the database's own
port for the given source to the database's security group; the
description defaults to "Allow database connection".  (In the source an
IConnectable is resolved to its security group first; peers are modelled
directly.)  Nothing else of the construct state changes. -/
def DatabaseConstruct.allowConnectionsFrom (db : DatabaseConstruct)
    (source : Peer) (description : Option String) : DatabaseConstruct :=
  { db with
    securityGroup :=
      { db.securityGroup with
        ingressRules := db.securityGroup.ingressRules ++
          [ { peer := source
              port := db.port
              description := description.getD "Allow database connection" } ] } }

/-! ## JumphostConstruct (`jumphost-construct.ts`) -/

structure JumphostConstructProps where
  instanceType : Option InstanceTypeSpec
  keyPairName : Option String
  allowSshFromAnywhere : Option Bool
deriving DecidableEq, Repr

structure KeyPairSpec where
  keyPairName : String
  keyType : String
  format : String
deriving DecidableEq, Repr

/-- The EC2 instance creation request for the jumphost. -/
structure Ec2InstanceSpec where
  subnetType : SubnetType
  instanceType : InstanceTypeSpec
  keyPairName : String
  userDataCausesReplacement : Bool
deriving DecidableEq, Repr

structure JumphostConstruct where
  keyPair : KeyPairSpec
  securityGroup : SecurityGroup
  ec2Instance : Ec2InstanceSpec
  instanceId : String
  publicIp : String
  actions : List ProviderAction
deriving DecidableEq, Repr

/-- `JumphostConstruct` constructor: creates the key pair, a security group
with `allowAllOutbound: true`, adds the single anyIpv4 SSH (tcp 22)
ingress rule only when `allowSshFromAnywhere` (default true), and places
the instance in the public subnet group.  `instanceIdAttr` and
`publicIpAttr` stand for the provider-resolved instance attributes. -/
def JumphostConstruct.make (props : JumphostConstructProps)
    (instanceIdAttr publicIpAttr : String) : JumphostConstruct :=
  let instanceType := props.instanceType.getD { instanceClass := "T3", instanceSize := "MICRO" }
  let keyPairName := props.keyPairName.getD "springboot-jumphost-key"
  let allowSshFromAnywhere := props.allowSshFromAnywhere.getD true
  let sg : SecurityGroup :=
    { description := "Security group for EC2 jumphost"
      allowAllOutbound := true
      ingressRules := [] }
  let sg :=
    if allowSshFromAnywhere then
      { sg with ingressRules := sg.ingressRules ++
          [ { peer := .anyIpv4, port := 22,
              description := "Allow SSH access from anywhere" } ] }
    else sg
  { keyPair := { keyPairName := keyPairName, keyType := "RSA", format := "PEM" }
    securityGroup := sg
    ec2Instance :=
      { subnetType := .public
        instanceType := instanceType
        keyPairName := keyPairName
        userDataCausesReplacement := true }
    instanceId := instanceIdAttr
    publicIp := publicIpAttr
    actions := [.create "KeyPair", .create "SecurityGroup", .create "Role", .create "Instance"] }

/-! ## ApplicationConstruct (`application-construct.ts`) -/

structure ApplicationConstructProps where
  certificateDomainName : String
  databaseEndpoint : String
  databasePort : Nat
  databaseSecretArn : String
  databaseName : String
  githubRepo : Option String
  desiredCount : Option Nat
  cpu : Option Nat
  memoryLimitMiB : Option Nat
  minCapacity : Option Nat
  maxCapacity : Option Nat
deriving DecidableEq, Repr

structure RepositorySpec where
  repositoryName : String
  imageScanOnPush : Bool
  maxImageCount : Nat
  removalPolicy : RemovalPolicy
deriving DecidableEq, Repr

structure ClusterSpec where
  clusterName : String
  containerInsights : Bool
deriving DecidableEq, Repr

/-- The load-balanced Fargate service creation request. -/
structure ServiceSpec where
  serviceName : String
  cpu : Nat
  memoryLimitMiB : Nat
  desiredCount : Nat
  imageRepo : String
  containerPort : Nat
  environment : List (String × String)
  secretKeys : List String
  publicLoadBalancer : Bool
  listenerPort : Nat
  certificateDomainName : String
  redirectHTTP : Bool
deriving DecidableEq, Repr

structure HealthCheckSpec where
  path : String
  healthyHttpCodes : String
  intervalSeconds : Nat
  timeoutSeconds : Nat
  healthyThresholdCount : Nat
  unhealthyThresholdCount : Nat
deriving DecidableEq, Repr

/-- The `autoScaleTaskCount` capacity bounds together with the two target
tracking policies registered by `setupAutoScaling`. -/
structure AutoScalingSpec where
  minCapacity : Nat
  maxCapacity : Nat
  cpuTargetUtilizationPercent : Nat
  memoryTargetUtilizationPercent : Nat
  scaleInCooldownMinutes : Nat
  scaleOutCooldownMinutes : Nat
deriving DecidableEq, Repr

structure ApplicationConstruct where
  repository : RepositorySpec
  cluster : ClusterSpec
  service : ServiceSpec
  healthCheck : HealthCheckSpec
  autoScaling : AutoScalingSpec
  loadBalancerDnsName : String
  actions : List ProviderAction
deriving DecidableEq, Repr

/-- `ApplicationConstruct` constructor: applies the defaults, then creates
the ECR repository (keep last 10 images), log group, cluster and the
HTTPS load-balanced Fargate service (port 443 terminating the supplied
certificate, 80 redirected, container port 8080, database parameters as
plain environment values and credentials as secret references), configures
the health check and registers the two auto-scaling policies.  It performs
no validation of the desired/min/max counts. -/
def ApplicationConstruct.make (props : ApplicationConstructProps)
    (loadBalancerDnsNameAttr : String) : ApplicationConstruct :=
  let githubRepo := props.githubRepo.getD "https://github.com/integrationninjas/springboot-example.git"
  let desiredCount := props.desiredCount.getD 2
  let cpu := props.cpu.getD 512
  let memoryLimitMiB := props.memoryLimitMiB.getD 1024
  let minCapacity := props.minCapacity.getD 1
  let maxCapacity := props.maxCapacity.getD 10
  { repository :=
      { repositoryName := "spring-boot-app"
        imageScanOnPush := true
        maxImageCount := 10
        removalPolicy := .destroy }
    cluster := { clusterName := "spring-boot-cluster", containerInsights := true }
    service :=
      { serviceName := "spring-boot-service"
        cpu := cpu
        memoryLimitMiB := memoryLimitMiB
        desiredCount := desiredCount
        imageRepo := githubRepo
        containerPort := 8080
        environment :=
          [ ("SPRING_PROFILES_ACTIVE", "prod")
          , ("SERVER_PORT", "8080")
          , ("DATABASE_HOST", props.databaseEndpoint)
          , ("DATABASE_PORT", toString props.databasePort)
          , ("DATABASE_NAME", props.databaseName) ]
        secretKeys := ["DATABASE_USERNAME", "DATABASE_PASSWORD"]
        publicLoadBalancer := true
        listenerPort := 443
        certificateDomainName := props.certificateDomainName
        redirectHTTP := true }
    healthCheck :=
      { path := "/"
        healthyHttpCodes := "200"
        intervalSeconds := 30
        timeoutSeconds := 5
        healthyThresholdCount := 2
        unhealthyThresholdCount := 3 }
    autoScaling :=
      { minCapacity := minCapacity
        maxCapacity := maxCapacity
        cpuTargetUtilizationPercent := 70
        memoryTargetUtilizationPercent := 80
        scaleInCooldownMinutes := 5
        scaleOutCooldownMinutes := 2 }
    loadBalancerDnsName := loadBalancerDnsNameAttr
    actions := [.create "Repository", .create "LogGroup", .create "Cluster", .create "Service"] }

/-! ## EcsProjectStack (the orchestrating stack) -/

structure EcsProjectStackProps where
  domainName : Option String
  subdomainName : Option String
deriving DecidableEq, Repr

/-- Provider-resolved attributes consumed by the stack: deploy-time tokens
surfaced by the provider for resources the constructs created. -/
structure ProviderAttributes where
  databaseSecretArn : String
  databaseEndpointHost : String
  databaseEndpointPort : Nat
  jumphostInstanceId : String
  jumphostPublicIp : String
  loadBalancerDnsName : String
  repositoryUri : String
deriving DecidableEq, Repr

/-- One step of the stack constructor, in source order: a component was
created (all its resources, its security boundary included), or a
reachability grant `source → destination` was executed
(`database.allowConnectionsFrom(...)`). -/
inductive StackEvent where
  | created (c : Component)
  | granted (source destination : Component)
deriving DecidableEq, Repr

/-- True exactly on grant events. -/
def StackEvent.isGrant : StackEvent → Bool
  | .granted _ _ => true
  | _ => false

/-- Checks that every grant event in the list is preceded by the creation
events of both of its endpoints, scanning left to right with the set of
already-seen events. -/
def grantsAfterEndpointsAux (seen : List StackEvent) : List StackEvent → Bool
  | [] => true
  | e :: rest =>
    (match e with
     | .granted s d => seen.contains (.created s) && seen.contains (.created d)
     | _ => true) && grantsAfterEndpointsAux (e :: seen) rest

def grantsAfterEndpoints (t : List StackEvent) : Bool :=
  grantsAfterEndpointsAux [] t

/-- The A record request created by `dns.createARecord`: the record name is
the first dot-separated label of the full domain name. -/
structure ARecordSpec where
  zoneDomain : String
  recordName : String
  aliasTargetDnsName : String
deriving DecidableEq, Repr

structure EcsProjectStack where
  network : NetworkConstruct
  dns : DnsConstruct
  database : DatabaseConstruct
  jumphost : JumphostConstruct
  application : ApplicationConstruct
  aRecord : ARecordSpec
  outputs : List (String × String)
  trace : List StackEvent
deriving DecidableEq, Repr

/-- `EcsProjectStack` constructor: defaults the domain to "oazis.site" and
the subdomain to "spring", then creates Network, Dns, Database and
Jumphost, grants Jumphost→Database, creates Application, grants
Application→Database, creates the A record, and publishes the outputs.
`trace` records these steps in source order.  The `database` field holds
the database state after both grants. -/
def EcsProjectStack.make (props : EcsProjectStackProps)
    (attrs : ProviderAttributes) : EcsProjectStack :=
  let domainName := props.domainName.getD "oazis.site"
  let subdomainName := props.subdomainName.getD "spring"
  let network := NetworkConstruct.make { maxAzs := some 2, natGateways := some 1 }
  let dns := DnsConstruct.make
    { domainName := domainName, subdomainName := some subdomainName,
      subjectAlternativeNames := none }
  let database := DatabaseConstruct.make
    { databaseName := some "springbootdb", username := some "springboot",
      instanceType := none, allocatedStorage := none,
      maxAllocatedStorage := none, deletionProtection := some false }
    attrs.databaseSecretArn attrs.databaseEndpointHost attrs.databaseEndpointPort
  let jumphost := JumphostConstruct.make
    { instanceType := none, keyPairName := some "springboot-jumphost-key",
      allowSshFromAnywhere := none }
    attrs.jumphostInstanceId attrs.jumphostPublicIp
  let database := database.allowConnectionsFrom (.securityGroupOf .jumphost)
    (some "Allow jumphost to connect to database")
  let application := ApplicationConstruct.make
    { certificateDomainName := dns.certificate.domainName
      databaseEndpoint := database.endpoint
      databasePort := database.port
      databaseSecretArn := database.secretArn
      databaseName := "springbootdb"
      githubRepo := none
      desiredCount := some 2
      cpu := none
      memoryLimitMiB := none
      minCapacity := some 1
      maxCapacity := some 10 }
    attrs.loadBalancerDnsName
  let database := database.allowConnectionsFrom (.securityGroupOf .application)
    (some "Allow ECS service to connect to database")
  { network := network
    dns := dns
    database := database
    jumphost := jumphost
    application := application
    aRecord :=
      { zoneDomain := dns.hostedZoneDomain
        recordName := (dns.fullDomainName.splitOn ".").headD ""
        aliasTargetDnsName := attrs.loadBalancerDnsName }
    outputs :=
      [ ("ApplicationURL", "https://" ++ dns.fullDomainName)
      , ("LoadBalancerDNS", application.loadBalancerDnsName)
      , ("ClusterName", application.cluster.clusterName)
      , ("ECRRepositoryURI", attrs.repositoryUri)
      , ("DatabaseEndpoint", database.endpoint)
      , ("DatabaseSecretArn", database.secretArn)
      , ("JumphostInstanceId", jumphost.instanceId)
      , ("JumphostPublicIP", jumphost.publicIp)
      , ("SSHKeyPairName", jumphost.keyPair.keyPairName) ]
    trace :=
      [ .created .network
      , .created .dns
      , .created .database
      , .created .jumphost
      , .granted .jumphost .database
      , .created .application
      , .granted .application .database ] }

/-! ## Concrete configurations used in counterexamples -/

/-- An application configuration with `desiredCount 2`, `minCapacity 1`,
`maxCapacity 1` (scenario B of the spec). -/
def appPropsDesiredExceedsMax : ApplicationConstructProps :=
  { certificateDomainName := "spring.oazis.site"
    databaseEndpoint := "db.internal.example"
    databasePort := 5432
    databaseSecretArn := "arn:aws:secretsmanager:secret"
    databaseName := "springbootdb"
    githubRepo := none
    desiredCount := some 2
    cpu := none
    memoryLimitMiB := none
    minCapacity := some 1
    maxCapacity := some 1 }

/-- A database configuration with every optional key absent. -/
def dbPropsAllAbsent : DatabaseConstructProps :=
  { databaseName := none, username := none, instanceType := none,
    allocatedStorage := none, maxAllocatedStorage := none,
    deletionProtection := none }

/-- A database configuration with deletion protection enabled. -/
def dbPropsProtected : DatabaseConstructProps :=
  { dbPropsAllAbsent with deletionProtection := some true }

/-- The same configuration re-run with deletion protection toggled off. -/
def dbPropsUnprotected : DatabaseConstructProps :=
  { dbPropsAllAbsent with deletionProtection := some false }

end EcsInfra

namespace EcsInfra

/-! ## Claim theorems -/

/-- C1, counterexample: with `{minCapacity 1, maxCapacity 1, desiredCount 2}`
the application construct is NOT rejected by any `validate` step: its
constructor issues provider creation calls and forwards the invalid
combination unchanged (service desiredCount 2 with auto-scaling bound 1).
No validation exists anywhere in the code. -/
theorem c1_claim_counterexample :
    (ApplicationConstruct.make appPropsDesiredExceedsMax "lb.example").service.desiredCount = 2 ∧
    (ApplicationConstruct.make appPropsDesiredExceedsMax "lb.example").autoScaling.maxCapacity = 1 ∧
    (ApplicationConstruct.make appPropsDesiredExceedsMax "lb.example").actions ≠ [] := by
  refine ⟨rfl, rfl, ?_⟩
  simp [ApplicationConstruct.make, appPropsDesiredExceedsMax]

/-- C1, amended: there is no `validate` step; every configuration, including
those with desiredCount exceeding maxCapacity, is accepted and the
desired/min/max counts are forwarded unchanged into the provisioning
calls (which are always issued). -/
theorem c1_amended_no_validation (props : ApplicationConstructProps) (lb : String) :
    (ApplicationConstruct.make props lb).service.desiredCount = props.desiredCount.getD 2 ∧
    (ApplicationConstruct.make props lb).autoScaling.minCapacity = props.minCapacity.getD 1 ∧
    (ApplicationConstruct.make props lb).autoScaling.maxCapacity = props.maxCapacity.getD 10 ∧
    (ApplicationConstruct.make props lb).actions ≠ [] := by
  refine ⟨rfl, rfl, rfl, ?_⟩
  simp [ApplicationConstruct.make]

/-- C2, counterexample: a network configuration with azCount 0 and NAT count
5 is not rejected: the constructor issues the VPC creation request with
exactly those values, so any failure would surface at the provider, not
before provisioning. -/
theorem c2_claim_counterexample :
    (NetworkConstruct.make { maxAzs := some 0, natGateways := some 5 }).vpc.maxAzs = 0 ∧
    (NetworkConstruct.make { maxAzs := some 0, natGateways := some 5 }).vpc.natGateways = 5 ∧
    (NetworkConstruct.make { maxAzs := some 0, natGateways := some 5 }).actions
      = [.create "Vpc"] := by
  exact ⟨rfl, rfl, rfl⟩

/-- C2, amended: the network construct performs no validation of the AZ or
NAT gateway counts; after defaulting (2 and 1) the values are passed
unchanged into the VPC creation request handed to the provider. -/
theorem c2_amended_passthrough (props : NetworkConstructProps) :
    (NetworkConstruct.make props).vpc.maxAzs = props.maxAzs.getD 2 ∧
    (NetworkConstruct.make props).vpc.natGateways = props.natGateways.getD 1 ∧
    (NetworkConstruct.make props).actions = [.create "Vpc"] := by
  exact ⟨rfl, rfl, rfl⟩

/-- C3, counterexample: with the subdomain key absent, the resolved full
name for domain "example.com" is "spring.example.com", not
"app.example.com": the default subdomain is "spring", not "app". -/
theorem c3_claim_counterexample :
    (DnsConstruct.make
      { domainName := "example.com", subdomainName := none,
        subjectAlternativeNames := none }).fullDomainName = "spring.example.com" ∧
    (DnsConstruct.make
      { domainName := "example.com", subdomainName := none,
        subjectAlternativeNames := none }).fullDomainName ≠ "app.example.com" := by
  exact ⟨rfl, by decide⟩

/-- C3, amended: when the subdomain key is absent it defaults to "spring",
so the resolved fully-qualified name is "spring." followed by the domain;
when extraNames is absent the certificate's additional names default to
the wildcard on the domain. -/
theorem c3_amended_defaults (domain : String) :
    (DnsConstruct.make
      { domainName := domain, subdomainName := none,
        subjectAlternativeNames := none }).fullDomainName = "spring" ++ "." ++ domain ∧
    (DnsConstruct.make
      { domainName := domain, subdomainName := none,
        subjectAlternativeNames := none }).certificate.subjectAlternativeNames
      = ["*." ++ domain] := by
  exact ⟨rfl, rfl⟩

/-- C4, counterexample: with the name and username keys absent the database
name defaults to "springbootdb" (not "appdb") and the username to
"springboot" (not "appuser"). -/
theorem c4_claim_counterexample :
    (DatabaseConstruct.make dbPropsAllAbsent "arn" "host" 5432).databaseName = "springbootdb" ∧
    (DatabaseConstruct.make dbPropsAllAbsent "arn" "host" 5432).databaseName ≠ "appdb" ∧
    (DatabaseConstruct.make dbPropsAllAbsent "arn" "host" 5432).username = "springboot" ∧
    (DatabaseConstruct.make dbPropsAllAbsent "arn" "host" 5432).username ≠ "appuser" := by
  exact ⟨rfl, by decide, rfl, by decide⟩

/-- C4, amended: the database name defaults to "springbootdb" and the
username to "springboot" when the respective keys are absent; present
overrides win. -/
theorem c4_amended_defaults (props : DatabaseConstructProps)
    (arn host : String) (port : Nat) :
    (DatabaseConstruct.make props arn host port).databaseName
      = props.databaseName.getD "springbootdb" ∧
    (DatabaseConstruct.make props arn host port).username
      = props.username.getD "springboot" := by
  exact ⟨rfl, rfl⟩

/-- C5: for the configuration `{domain "example.com", subdomain "api"}` the
published output set's application URL entry equals
"https://api.example.com", for every provider attribute resolution. -/
theorem c5_application_url (attrs : ProviderAttributes) :
    (EcsProjectStack.make
      { domainName := some "example.com", subdomainName := some "api" }
      attrs).outputs.lookup "ApplicationURL" = some "https://api.example.com" := by
  rfl

/-- C6, counterexample: re-running provisioning with deletionProtection
toggled from true to false does NOT leave the survive-teardown policy
unchanged: the emitted removal policy flips from retain to destroy. -/
theorem c6_claim_counterexample :
    (DatabaseConstruct.make dbPropsProtected "arn" "host" 5432).dbInstance.removalPolicy
      = RemovalPolicy.retain ∧
    (DatabaseConstruct.make dbPropsUnprotected "arn" "host" 5432).dbInstance.removalPolicy
      = RemovalPolicy.destroy ∧
    (DatabaseConstruct.make dbPropsUnprotected "arn" "host" 5432).dbInstance.removalPolicy
      ≠ (DatabaseConstruct.make dbPropsProtected "arn" "host" 5432).dbInstance.removalPolicy := by
  exact ⟨rfl, rfl, by decide⟩

/-- C6, amended: the database's survive-teardown policy follows the current
flag (retain exactly when deletionProtection is true, destroy otherwise —
no one-way ratchet), while the provisioning pass itself issues only
creation requests and never a delete, so toggling the flag by itself
deletes nothing. -/
theorem c6_amended_removal_policy (props : DatabaseConstructProps)
    (arn host : String) (port : Nat) :
    (DatabaseConstruct.make props arn host port).dbInstance.removalPolicy
      = (if props.deletionProtection.getD false then RemovalPolicy.retain
         else RemovalPolicy.destroy) ∧
    (DatabaseConstruct.make props arn host port).dbInstance.deletionProtection
      = props.deletionProtection.getD false ∧
    ((DatabaseConstruct.make props arn host port).actions.any ProviderAction.isDelete)
      = false := by
  exact ⟨rfl, rfl, rfl⟩

/-- C7: the database's security boundary is created default-deny (outbound
closed, no ingress rules), and `allowConnectionsFrom` — the only exposed
mutation — appends exactly one rule on the database's own port for the
given source, leaving everything else of the construct state unchanged. -/
theorem c7_default_deny_and_grant :
    (∀ (props : DatabaseConstructProps) (arn host : String) (port : Nat),
      (DatabaseConstruct.make props arn host port).securityGroup.allowAllOutbound = false ∧
      (DatabaseConstruct.make props arn host port).securityGroup.ingressRules = []) ∧
    (∀ (db : DatabaseConstruct) (src : Peer) (desc : Option String),
      (db.allowConnectionsFrom src desc).securityGroup.ingressRules
        = db.securityGroup.ingressRules ++
          [ { peer := src, port := db.port,
              description := desc.getD "Allow database connection" } ] ∧
      (db.allowConnectionsFrom src desc).securityGroup.allowAllOutbound
        = db.securityGroup.allowAllOutbound ∧
      (db.allowConnectionsFrom src desc).dbInstance = db.dbInstance ∧
      (db.allowConnectionsFrom src desc).secret = db.secret ∧
      (db.allowConnectionsFrom src desc).port = db.port ∧
      (db.allowConnectionsFrom src desc).endpoint = db.endpoint ∧
      (db.allowConnectionsFrom src desc).actions = db.actions) := by
  exact ⟨fun props arn host port => ⟨rfl, rfl⟩,
    fun db src desc => ⟨rfl, rfl, rfl, rfl, rfl, rfl, rfl⟩⟩

/-- C8: with allowSshFromAnywhere false the bastion security boundary has no
ingress rules at all (in particular none on port 22); with the flag true
or absent it has exactly the one anyIpv4 SSH rule on port 22. -/
theorem c8_ssh_ingress (props : JumphostConstructProps) (iid pip : String) :
    (JumphostConstruct.make props iid pip).securityGroup.ingressRules
      = (if props.allowSshFromAnywhere.getD true then
          [ { peer := Peer.anyIpv4, port := 22,
              description := "Allow SSH access from anywhere" } ]
         else []) ∧
    ((JumphostConstruct.make props iid pip).securityGroup.ingressRules.filter
        fun r => r.port == 22)
      = (JumphostConstruct.make props iid pip).securityGroup.ingressRules := by
  cases hb : props.allowSshFromAnywhere.getD true <;>
    simp [JumphostConstruct.make, hb]

/-- C9: the orchestration trace contains exactly two reachability grants,
Bastion→Database and Application→Database, each exactly once, and every
grant is preceded in the trace by the creation of both of its endpoint
components (the database creation includes its security boundary). -/
theorem c9_wire_ordering (props : EcsProjectStackProps) (attrs : ProviderAttributes) :
    (EcsProjectStack.make props attrs).trace.filter StackEvent.isGrant
      = [.granted .jumphost .database, .granted .application .database] ∧
    grantsAfterEndpoints (EcsProjectStack.make props attrs).trace = true ∧
    (EcsProjectStack.make props attrs).trace.count
      (StackEvent.granted .jumphost .database) = 1 ∧
    (EcsProjectStack.make props attrs).trace.count
      (StackEvent.granted .application .database) = 1 := by
  exact ⟨rfl, rfl, rfl, rfl⟩

/-- C10: the bastion's security boundary always allows all outbound traffic,
regardless of any override — in contrast to the database's boundary,
which is always created with outbound closed. -/
theorem c10_jumphost_outbound :
    (∀ (props : JumphostConstructProps) (iid pip : String),
      (JumphostConstruct.make props iid pip).securityGroup.allowAllOutbound = true) ∧
    (∀ (props : DatabaseConstructProps) (arn host : String) (port : Nat),
      (DatabaseConstruct.make props arn host port).securityGroup.allowAllOutbound
        = false) := by
  constructor
  · intro props iid pip
    cases hb : props.allowSshFromAnywhere.getD true <;>
      simp [JumphostConstruct.make, hb]
  · intro props arn host port
    rfl
